import Mathlib

/-!
Verification development for the pronunciation-judging pipeline of
`speech_service.py`: Unicode text normalization, fuzzy similarity scoring,
the audio duration floor, and the `recognize_speech` orchestrator.

The transcription model and the audio decoder are external effects; they are
represented by an oracle (`Env`) that supplies the outcome (success value or
raised-exception message) of each effectful step, so that `recognize_speech`
becomes a pure function of its inputs and that oracle.
-/

/-- Models Python `str.isspace` for a single character: the full set of
characters Python classifies as whitespace (ASCII whitespace, the C1
separators, NBSP, and the Unicode space/line/paragraph separators). -/
def pyIsSpace (c : Char) : Bool :=
  c = ' ' || c = '\t' || c = '\n' || c.toNat = 11 || c.toNat = 12 || c = '\r' ||
  (28 ≤ c.toNat && c.toNat ≤ 31) || c.toNat = 133 || c.toNat = 160 ||
  c.toNat = 0x1680 || (0x2000 ≤ c.toNat && c.toNat ≤ 0x200A) ||
  c.toNat = 0x2028 || c.toNat = 0x2029 || c.toNat = 0x202F ||
  c.toNat = 0x205F || c.toNat = 0x3000

/-- Models Python `str.isalnum` for a single character, on the character
ranges exercised in this development: ASCII digits and letters, plus the
Latin-1 letter U+00DF (ß) as a representative non-ASCII alphabetic
character (Python's classification is Unicode-aware). -/
def pyIsAlnum (c : Char) : Bool :=
  (48 ≤ c.toNat && c.toNat ≤ 57) || (65 ≤ c.toNat && c.toNat ≤ 90) ||
  (97 ≤ c.toNat && c.toNat ≤ 122) || c.toNat = 0xDF

/-- Models Python `str.lower` one character at a time, on the modelled
ranges: ASCII uppercase letters map down by 32; every other modelled
character (ASCII, ß) is fixed. -/
def pyLower (c : Char) : Char :=
  if 65 ≤ c.toNat ∧ c.toNat ≤ 90 then Char.ofNat (c.toNat + 32) else c

/-- Models `unicodedata.normalize("NFC", ·)`. On the modelled character
ranges (ASCII and precomposed Latin-1) canonical composition has no effect,
so the model is the identity; NFC itself is idempotent and is the identity
on NFC-normal text. -/
def nfcList (cs : List Char) : List Char := cs

/-- Models Python `str.strip`: drop leading and trailing whitespace. -/
def stripList (cs : List Char) : List Char :=
  ((cs.dropWhile pyIsSpace).reverse.dropWhile pyIsSpace).reverse

/-- The character filter of `normalize_text`: keep a character when it is
alphanumeric or whitespace (`c.isalnum() or c.isspace()`). -/
def keepChar (c : Char) : Bool := pyIsAlnum c || pyIsSpace c

/-- Core of `normalize_text` on character lists: NFC, then
`.strip().lower()`, then keep only alphanumeric-or-whitespace characters
(speech_service.py lines 84–89). -/
def normList (cs : List Char) : List Char :=
  ((stripList (nfcList cs)).map pyLower).filter keepChar

/-- Embeds `normalize_text` (speech_service.py lines 84–89). -/
def normalize_text (s : String) : String := (normList s.toList).asString

/-- Models Python `str.strip` at the `String` level. -/
def pyStrip (s : String) : String := (stripList s.toList).asString

/-- Longest-common-subsequence length with explicit fuel; the fuel argument
makes the recursion structural so that concrete instances reduce in the
kernel. With fuel ≥ |as| + |bs| this computes the true LCS length. -/
def lcsFuel : Nat → List Char → List Char → Nat
  | 0, _, _ => 0
  | _ + 1, [], _ => 0
  | _ + 1, _ :: _, [] => 0
  | f + 1, a :: as, b :: bs =>
    if a = b then 1 + lcsFuel f as bs
    else max (lcsFuel f (a :: as) bs) (lcsFuel f as (b :: bs))

/-- Longest-common-subsequence length of two character lists. -/
def lcsLen (as bs : List Char) : Nat := lcsFuel (as.length + bs.length) as bs

/-- Models `rapidfuzz` `fuzz.ratio` on character lists: the normalized Indel
similarity scaled to 0–100. The Indel distance is `|a| + |b| - 2·lcs`, so
the score is `200·lcs / (|a| + |b|)` (and 100 when both inputs are empty);
the fraction is built with `mkRat` so that concrete instances reduce. -/
def indelScore (a b : List Char) : ℚ :=
  if a.length + b.length = 0 then 100
  else mkRat (200 * lcsLen a b) (a.length + b.length)

/-- Python `str.split()` with no separator: split on runs of whitespace,
discarding empty tokens. The accumulator holds the current token reversed. -/
def splitTokensAux : List Char → List Char → List (List Char)
  | [], acc => if acc = [] then [] else [acc.reverse]
  | c :: cs, acc =>
    if pyIsSpace c then
      if acc = [] then splitTokensAux cs [] else acc.reverse :: splitTokensAux cs []
    else splitTokensAux cs (c :: acc)

/-- Whitespace tokenization as used by `fuzz.token_sort_ratio`. -/
def splitTokens (cs : List Char) : List (List Char) := splitTokensAux cs []

/-- Code-point lexicographic order on character lists, matching Python
string comparison (used by `sorted`). -/
def charListLE : List Char → List Char → Bool
  | [], _ => true
  | _ :: _, [] => false
  | a :: as, b :: bs => if a = b then charListLE as bs else decide (a < b)

/-- Stable insertion into a sorted token list. -/
def insertToken (x : List Char) : List (List Char) → List (List Char)
  | [] => [x]
  | y :: ys => if charListLE x y then x :: y :: ys else y :: insertToken x ys

/-- Models Python `sorted` on a token list (stable, ascending). -/
def sortTokens : List (List Char) → List (List Char)
  | [] => []
  | x :: xs => insertToken x (sortTokens xs)

/-- Models the Python expression joining tokens with single spaces. -/
def joinTokens : List (List Char) → List Char
  | [] => []
  | [t] => t
  | t :: ts => t ++ ' ' :: joinTokens ts

/-- Models `fuzz.token_sort_ratio`: split each string into whitespace
tokens, sort them, rejoin with single spaces, then take the Indel ratio. -/
def tokenSortScore (a b : List Char) : ℚ :=
  indelScore (joinTokens (sortTokens (splitTokens a)))
             (joinTokens (sortTokens (splitTokens b)))

/-- Embeds `calculate_similarity` (speech_service.py lines 92–98): normalize
both strings, return 0.0 when the normalized actual string is empty, else
the token-sort fuzzy ratio. -/
def calculate_similarity (expected actual : String) : ℚ :=
  let exp_norm := normalize_text expected
  let act_norm := normalize_text actual
  if act_norm = "" then 0 else tokenSortScore exp_norm.toList act_norm.toList

/-- Models Python `round(x, 1)`: the nearest multiple of 1/10, rounding a
half up, written as `⌊10·q + 1/2⌋ / 10` with the inner rational built by
`mkRat` on numerator and denominator so that concrete instances reduce.
(Python uses banker's rounding on exact ties; no score evaluated in this
development lies on a tie.) -/
def pyRound1 (q : ℚ) : ℚ :=
  mkRat ⌊mkRat (20 * q.num + q.den) (2 * q.den)⌋ 10

deriving instance DecidableEq for Except

/-- The result dictionary of `recognize_speech` (speech_service.py lines
348–356 on success, 360–369 on error); the optional `error` key becomes an
`Option` field. -/
structure Verdict where
  transcribed : String
  expected : String
  similarity : ℚ
  script_similarity : ℚ
  roman_similarity : ℚ
  is_correct : Bool
  language : String
  error : Option String
deriving DecidableEq

/-- Oracle for the effectful steps of one `recognize_speech` call: the
configuration flag `DISABLE_PASS1`, and the outcome of audio conversion
(`_convert_to_wav`) and of each Whisper pass — either a transcript or the
message of the exception that step raises. `pass1Result` describes what the
native-language pass would produce were it executed. -/
structure Env where
  disablePass1 : Bool
  convertResult : Except String Unit
  pass2Result : Except String String
  pass1Result : Except String String
deriving DecidableEq

/-- Embeds the `_transcribe` closure (speech_service.py lines 255–310):
run pass 2 (romanized/English) first; if `DISABLE_PASS1` is set or the
early romanized score meets the threshold, skip pass 1 and return an empty
native transcript; otherwise run pass 1. -/
def transcribeStep (env : Env) (romanized : String) (similarity_threshold : ℚ) :
    Except String (String × String) :=
  match env.pass2Result with
  | .error e => .error e
  | .ok transcribed_roman =>
    let roman_sim_early : ℚ :=
      if romanized = "" then 0 else calculate_similarity romanized transcribed_roman
    if env.disablePass1 || decide (similarity_threshold ≤ roman_sim_early) then
      .ok ("", transcribed_roman)
    else
      match env.pass1Result with
      | .error e => .error e
      | .ok transcribed_native => .ok (transcribed_native, transcribed_roman)

/-- The error dictionary built in the `except` branch of `recognize_speech`
(speech_service.py lines 358–369). -/
def errorVerdict (expected_word language msg : String) : Verdict :=
  { transcribed := ""
    expected := expected_word
    similarity := 0
    script_similarity := 0
    roman_similarity := 0
    is_correct := false
    language := language
    error := some msg }

/-- Embeds `recognize_speech` (speech_service.py lines 226–372) as a pure
function of its text inputs and the oracle `env` describing the audio
conversion and transcription outcomes. Similarity fields are rounded to one
decimal for the result; `is_correct` compares the unrounded best score to
the threshold. -/
def recognize_speech (env : Env) (language expected_word romanized : String)
    (similarity_threshold : ℚ) : Verdict :=
  match env.convertResult with
  | .error e => errorVerdict expected_word language e
  | .ok _ =>
    match transcribeStep env romanized similarity_threshold with
    | .error e => errorVerdict expected_word language e
    | .ok (transcribed_native, transcribed_roman) =>
      let similarity := calculate_similarity expected_word transcribed_native
      let roman_similarity : ℚ :=
        if romanized = "" then 0
        else calculate_similarity romanized transcribed_roman
      let transcribed :=
        if similarity < roman_similarity then transcribed_roman
        else transcribed_native
      let best_similarity := max similarity roman_similarity
      { transcribed := transcribed
        expected := expected_word
        similarity := pyRound1 best_similarity
        script_similarity := pyRound1 similarity
        roman_similarity := pyRound1 roman_similarity
        is_correct := decide (similarity_threshold ≤ best_similarity)
        language := language
        error := none }

/-- The message of the first exception raised by an executed step of
`recognize_speech` (audio conversion, then the transcription closure), or
`none` when every executed step succeeds. -/
def stepError (env : Env) (romanized : String) (similarity_threshold : ℚ) :
    Option String :=
  match env.convertResult with
  | .error e => some e
  | .ok _ =>
    match transcribeStep env romanized similarity_threshold with
    | .error e => some e
    | .ok _ => none

/-- The unrounded best similarity of a `recognize_speech` run: the maximum
of the native-script score and the romanized score on the success path, 0
on the error path. -/
def bestScore (env : Env) (expected_word romanized : String)
    (similarity_threshold : ℚ) : ℚ :=
  match env.convertResult with
  | .error _ => 0
  | .ok _ =>
    match transcribeStep env romanized similarity_threshold with
    | .error _ => 0
    | .ok (transcribed_native, transcribed_roman) =>
      max (calculate_similarity expected_word transcribed_native)
        (if romanized = "" then 0
         else calculate_similarity romanized transcribed_roman)

/-- The duration floor of `_convert_to_wav` (speech_service.py line 201). -/
def MIN_DURATION_MS : Nat := 1000

/-- Embeds the duration-floor step of `_convert_to_wav` (speech_service.py
lines 199–205) at millisecond granularity: an input shorter than
`MIN_DURATION_MS` is extended with `MIN_DURATION_MS - len` milliseconds of
trailing silence (`audio + silence`); longer input is left unchanged. -/
def convertPadMs (lenMs : Nat) : Nat :=
  if lenMs < MIN_DURATION_MS then lenMs + (MIN_DURATION_MS - lenMs) else lenMs

/-- Models Python `str.casefold` one character at a time on the modelled
ranges: as `str.lower`, except that ß case-folds to "ss". -/
def caseFold (c : Char) : List Char :=
  if c.toNat = 0xDF then ['s', 's'] else [pyLower c]

/-- Stated from the spec's words, for comparison with `normalize_text`:
"Unicode canonical composition (NFC) first, then case-fold, then strip
every character that is neither alphanumeric nor whitespace" — with no
`str.strip` of surrounding whitespace and a full case-fold. -/
def spec_normalize_text (s : String) : String :=
  ((((nfcList s.toList).map caseFold).flatten).filter keepChar).asString

/-- The amended pipeline actually implemented by `normalize_text`: NFC,
then `str.strip` of surrounding whitespace, then `str.lower` (not a full
case-fold) one character at a time, then the same keep-filter. -/
def amended_normalize_text (s : String) : String :=
  ((((stripList (nfcList s.toList)).map (fun c => [pyLower c])).flatten).filter
    keepChar).asString

/-- Oracle for the rounding-boundary run: conversion succeeds, pass 2 hears
nothing, pass 1 hears "b". -/
def envC1 : Env := ⟨false, .ok (), .ok "", .ok "b"⟩

/-- Oracle for the equal-transcripts run: both passes hear "cat". -/
def envC6 : Env := ⟨false, .ok (), .ok "cat", .ok "cat"⟩

/-- Oracle for the rounding-semantics run: conversion succeeds, pass 2
hears nothing, pass 1 hears "b". -/
def envC10 : Env := ⟨false, .ok (), .ok "", .ok "b"⟩

/-! Sanity checks of the embedding on concrete inputs. -/

example : normalize_text "  Hello! " = "hello" := by decide
example : normalize_text "cat1" = "cat1" := by decide
example : calculate_similarity "cat" "cat" = 100 := by decide
example : calculate_similarity "cat dog" "dog cat" = 100 := by decide
example : calculate_similarity "ab" "b" = mkRat 200 3 := by decide
example : calculate_similarity "cat" "" = 0 := by decide
example : pyRound1 (mkRat 200 3) = mkRat 667 10 := by decide
example : pyRound1 0 = 0 := by decide
example : transcribeStep ⟨false, .ok (), .ok "pilli", .error "crash"⟩ "pilli" 50
    = .ok ("", "pilli") := by decide
example : (recognize_speech ⟨false, .ok (), .ok "pilli", .ok "junk"⟩ "telugu"
    "boat" "pilli" 50).transcribed = "pilli" := by decide

/-! Helper lemmas. -/

theorem flatten_map_singleton (f : Char → Char) (l : List Char) :
    (l.map (fun c => [f c])).flatten = l.map f := by
  induction l with
  | nil => rfl
  | cons c cs ih => simp [ih]

theorem charOfNat_lower_toNat : ∀ n < 123, 96 ≤ n → (Char.ofNat n).toNat = n := by
  decide

theorem pyLower_pyLower (c : Char) : pyLower (pyLower c) = pyLower c := by
  by_cases h : 65 ≤ c.toNat ∧ c.toNat ≤ 90
  · have h1 : pyLower c = Char.ofNat (c.toNat + 32) := by
      unfold pyLower; rw [if_pos h]
    have h2 : (Char.ofNat (c.toNat + 32)).toNat = c.toNat + 32 :=
      charOfNat_lower_toNat _ (by omega) (by omega)
    rw [h1]
    unfold pyLower
    rw [if_neg (by rw [h2]; omega)]
  · have h1 : pyLower c = c := by unfold pyLower; rw [if_neg h]
    rw [h1]
    exact h1

theorem map_fixes {f : Char → Char} {l : List Char}
    (h : ∀ c ∈ l, f c = c) : l.map f = l := by
  induction l with
  | nil => rfl
  | cons c cs ih =>
    simp only [List.map_cons, h c (List.mem_cons_self c cs)]
    rw [ih fun x hx => h x (List.mem_cons_of_mem c hx)]

theorem filter_keeps {p : Char → Bool} {l : List Char}
    (h : ∀ c ∈ l, p c = true) : l.filter p = l := by
  induction l with
  | nil => rfl
  | cons c cs ih =>
    simp only [List.filter_cons, h c (List.mem_cons_self c cs), if_pos]
    rw [ih fun x hx => h x (List.mem_cons_of_mem c hx)]

theorem mem_stripList {c : Char} {l : List Char} (h : c ∈ stripList l) :
    c ∈ l := by
  unfold stripList at h
  have h1 := List.mem_reverse.mp h
  have h2 := (List.dropWhile_sublist pyIsSpace).subset h1
  have h3 := List.mem_reverse.mp h2
  exact (List.dropWhile_sublist pyIsSpace).subset h3

theorem mem_normList {c : Char} {cs : List Char} (h : c ∈ normList cs) :
    pyLower c = c ∧ keepChar c = true := by
  unfold normList at h
  have h1 := List.mem_filter.mp h
  obtain ⟨c', _, rfl⟩ := List.mem_map.mp h1.1
  exact ⟨pyLower_pyLower c', h1.2⟩

theorem normList_normList (cs : List Char) :
    normList (normList cs) = stripList (normList cs) := by
  have hfix : ∀ c ∈ stripList (normList cs), pyLower c = c := fun c hc =>
    (mem_normList (mem_stripList hc)).1
  have hkeep : ∀ c ∈ stripList (normList cs), keepChar c = true := fun c hc =>
    (mem_normList (mem_stripList hc)).2
  conv_lhs => rw [normList]
  rw [show nfcList (normList cs) = normList cs from rfl, map_fixes hfix,
    filter_keeps hkeep]

theorem normalize_text_empty : normalize_text "" = "" := by decide

theorem calculate_similarity_of_norm_empty {actual : String} (expected : String)
    (h : normalize_text actual = "") : calculate_similarity expected actual = 0 := by
  unfold calculate_similarity
  simp [h]

theorem calculate_similarity_empty (expected : String) :
    calculate_similarity expected "" = 0 :=
  calculate_similarity_of_norm_empty expected normalize_text_empty

theorem mkRat_shift_eq (q : ℚ) :
    (mkRat (20 * q.num + q.den) (2 * q.den) : ℚ) = 10 * q + 1/2 := by
  have hd : (q.den : ℚ) ≠ 0 := Nat.cast_ne_zero.mpr q.den_nz
  rw [Rat.mkRat_eq_div]
  push_cast
  conv_rhs => rw [← Rat.num_div_den q]
  field_simp
  ring

theorem pyRound1_eq (q : ℚ) :
    pyRound1 q = (⌊(10 * q + 1/2 : ℚ)⌋ : ℚ) / 10 := by
  unfold pyRound1
  rw [mkRat_shift_eq, Rat.mkRat_eq_div]
  norm_num

theorem pyRound1_monotone : Monotone pyRound1 := by
  intro a b hab
  rw [pyRound1_eq, pyRound1_eq]
  have h : (⌊(10 * a + 1/2 : ℚ)⌋ : ℤ) ≤ ⌊(10 * b + 1/2 : ℚ)⌋ :=
    Int.floor_mono (by linarith)
  have h2 : ((⌊(10 * a + 1/2 : ℚ)⌋ : ℤ) : ℚ) ≤ ((⌊(10 * b + 1/2 : ℚ)⌋ : ℤ) : ℚ) :=
    Int.cast_le.mpr h
  linarith

theorem pyRound1_max (a b : ℚ) :
    pyRound1 (max a b) = max (pyRound1 a) (pyRound1 b) :=
  pyRound1_monotone.map_max

theorem pyRound1_zero : pyRound1 0 = 0 := by decide

/-! Claims. -/

/-- Claim C4, counterexample: on the input " ß " the implemented
`normalize_text` strips the surrounding whitespace first and lowercases
(which fixes ß), yielding "ß", while the spec's pipeline (NFC, case-fold,
filter) keeps the surrounding spaces and case-folds ß to "ss",
yielding " ss ". -/
theorem normalize_text_spec_pipeline_counterexample :
    normalize_text " ß " = "ß" ∧ spec_normalize_text " ß " = " ss "
      ∧ normalize_text " ß " ≠ spec_normalize_text " ß " := by decide

/-- Claim C4, amended: `normalize_text` applies, in order, Unicode NFC
normalization, then a strip of leading/trailing whitespace, then Python
`str.lower` (not a full case-fold), then removes every character that is
neither alphanumeric nor whitespace (Unicode-aware classification). -/
theorem normalize_text_amended_pipeline (s : String) :
    normalize_text s = amended_normalize_text s := by
  unfold normalize_text amended_normalize_text normList
  rw [flatten_map_singleton]

/-- Claim C5 (confirmed): whenever the normalized actual string is empty,
`calculate_similarity` returns exactly 0, regardless of the expected
string; in particular the similarity against the empty string is 0. -/
theorem calculate_similarity_empty_actual_law (expected actual : String) :
    (normalize_text actual = "" → calculate_similarity expected actual = 0)
    ∧ calculate_similarity expected "" = 0 :=
  ⟨fun h => calculate_similarity_of_norm_empty expected h,
   calculate_similarity_empty expected⟩

/-- Witness for claim C5 at a concrete input whose normalization is empty. -/
theorem calculate_similarity_empty_actual_law_witness :
    calculate_similarity "cat" "!?" = 0 ∧ calculate_similarity "cat" "" = 0 :=
  ⟨(calculate_similarity_empty_actual_law "cat" "!?").1 (by decide),
   (calculate_similarity_empty_actual_law "cat" "").2⟩

/-- Claim C7, counterexample: `normalize_text` is not idempotent — on
"! a !" the character filter exposes surrounding whitespace (the result is
" a "), which a second application then strips to "a". -/
theorem normalize_text_not_idempotent :
    normalize_text (normalize_text "! a !") ≠ normalize_text "! a !" := by decide

/-- Claim C7, amended: a second application of `normalize_text` only strips
the leading/trailing whitespace that the character filter may expose, so
normalization is idempotent exactly up to that strip — in particular it is
idempotent on every input whose normalized form carries no surrounding
whitespace. -/
theorem normalize_text_idempotent_up_to_strip (s : String) :
    normalize_text (normalize_text s) = pyStrip (normalize_text s) := by
  show (normList (normList s.toList)).asString
      = (stripList (normList s.toList)).asString
  rw [normList_normList]

/-- Claim C8 (confirmed): decoded audio shorter than 1000 ms is extended
with trailing silence up to at least 1000 ms; audio of 1000 ms or longer is
left unpadded. -/
theorem convert_duration_floor (lenMs : Nat) :
    (lenMs < 1000 → 1000 ≤ convertPadMs lenMs)
    ∧ (1000 ≤ lenMs → convertPadMs lenMs = lenMs) := by
  unfold convertPadMs MIN_DURATION_MS
  constructor
  · intro h
    rw [if_pos h]
    omega
  · intro h
    rw [if_neg (by omega)]

/-- Witness for claim C8: a 40 ms clip is padded to the 1000 ms floor; a
2500 ms clip is returned unchanged. -/
theorem convert_duration_floor_witness :
    1000 ≤ convertPadMs 40 ∧ convertPadMs 2500 = 2500 :=
  ⟨(convert_duration_floor 40).1 (by decide),
   (convert_duration_floor 2500).2 (by decide)⟩

/-- Claim C1, amended: in every returned Verdict the similarity field
equals the maximum of the script_similarity and roman_similarity fields,
and is_correct is true exactly when no step failed and the UNROUNDED best
similarity meets the threshold — which can differ from comparing the
rounded similarity field to the threshold. -/
theorem recognize_verdict_consistency (env : Env)
    (language expected_word romanized : String) (similarity_threshold : ℚ) :
    (recognize_speech env language expected_word romanized similarity_threshold).similarity
      = max (recognize_speech env language expected_word romanized
              similarity_threshold).script_similarity
          (recognize_speech env language expected_word romanized
            similarity_threshold).roman_similarity
    ∧ (recognize_speech env language expected_word romanized
          similarity_threshold).is_correct
      = (decide ((recognize_speech env language expected_word romanized
            similarity_threshold).error = none)
          && decide (similarity_threshold
              ≤ bestScore env expected_word romanized similarity_threshold)) := by
  unfold recognize_speech bestScore
  cases hc : env.convertResult with
  | error e => simp [errorVerdict, pyRound1_zero]
  | ok u =>
    cases ht : transcribeStep env romanized similarity_threshold with
    | error e => simp [errorVerdict, pyRound1_zero]
    | ok p =>
      obtain ⟨tn, tr⟩ := p
      simp [pyRound1_max]

/-- Claim C1, counterexample: with expected word "ab", a pass-1 transcript
"b" and threshold 66.7, the unrounded best score is 200/3 ≈ 66.67, so the
reported similarity field rounds up to 66.7 and meets the threshold, yet
is_correct is false — is_correct does not equal (max of the reported
similarity fields ≥ threshold). -/
theorem recognize_verdict_consistency_counterexample :
    (recognize_speech envC1 "telugu" "ab" "" (mkRat 667 10)).similarity
      = max (recognize_speech envC1 "telugu" "ab" "" (mkRat 667 10)).script_similarity
          (recognize_speech envC1 "telugu" "ab" "" (mkRat 667 10)).roman_similarity
    ∧ mkRat 667 10
        ≤ max (recognize_speech envC1 "telugu" "ab" "" (mkRat 667 10)).script_similarity
            (recognize_speech envC1 "telugu" "ab" "" (mkRat 667 10)).roman_similarity
    ∧ (recognize_speech envC1 "telugu" "ab" "" (mkRat 667 10)).is_correct = false := by
  decide

/-- Claim C2 (confirmed): any exception raised by a step inside
`recognize_speech` is caught and normalized into the error Verdict —
is_correct false, all similarity fields 0, empty transcript, echoed
expected word and language, and the message in the error field; on success
the error field is absent. -/
theorem recognize_error_normalization (env : Env)
    (language expected_word romanized : String) (similarity_threshold : ℚ) :
    (∀ e, stepError env romanized similarity_threshold = some e →
        recognize_speech env language expected_word romanized similarity_threshold
          = { transcribed := ""
              expected := expected_word
              similarity := 0
              script_similarity := 0
              roman_similarity := 0
              is_correct := false
              language := language
              error := some e })
    ∧ (stepError env romanized similarity_threshold = none →
        (recognize_speech env language expected_word romanized
          similarity_threshold).error = none) := by
  unfold recognize_speech stepError
  cases hc : env.convertResult with
  | error e => simp [errorVerdict]
  | ok u =>
    cases ht : transcribeStep env romanized similarity_threshold with
    | error e => simp [errorVerdict]
    | ok p =>
      obtain ⟨tn, tr⟩ := p
      simp

/-- Witness for claim C2 at a conversion failure: the exception message
"boom" is normalized into the zeroed error Verdict. -/
theorem recognize_error_normalization_witness :
    recognize_speech ⟨false, .error "boom", .ok "", .ok ""⟩ "telugu" "boat"
        "padava" 50
      = { transcribed := ""
          expected := "boat"
          similarity := 0
          script_similarity := 0
          roman_similarity := 0
          is_correct := false
          language := "telugu"
          error := some "boom" } :=
  (recognize_error_normalization ⟨false, .error "boom", .ok "", .ok ""⟩
    "telugu" "boat" "padava" 50).1 "boom" rfl

/-- Claim C3 (confirmed): when romanized is non-empty and the romanized
pass score meets the threshold (or DISABLE_PASS1 is set), the native pass
is never executed — the outcome is independent of `pass1Result` — the
native transcript is the empty string, and the returned script_similarity
is 0. -/
theorem recognize_pass1_skipped (env : Env)
    (language expected_word romanized : String) (similarity_threshold : ℚ)
    (transcribed_roman : String)
    (hrom : romanized ≠ "")
    (h2 : env.pass2Result = .ok transcribed_roman)
    (hcond : similarity_threshold
        ≤ calculate_similarity romanized transcribed_roman
      ∨ env.disablePass1 = true) :
    transcribeStep env romanized similarity_threshold
        = .ok ("", transcribed_roman)
    ∧ (∀ p1, transcribeStep { env with pass1Result := p1 } romanized
          similarity_threshold = .ok ("", transcribed_roman))
    ∧ (recognize_speech env language expected_word romanized
        similarity_threshold).script_similarity = 0 := by
  have key : ∀ (e : Env), e.pass2Result = .ok transcribed_roman →
      (similarity_threshold ≤ calculate_similarity romanized transcribed_roman
        ∨ e.disablePass1 = true) →
      transcribeStep e romanized similarity_threshold
        = .ok ("", transcribed_roman) := by
    intro e he hcnd
    unfold transcribeStep
    rw [he]
    simp only [if_neg hrom]
    rcases hcnd with h | h
    · simp [decide_eq_true h]
    · simp [h]
  refine ⟨key env h2 hcond, fun p1 => key _ h2 hcond, ?_⟩
  unfold recognize_speech
  cases hc : env.convertResult with
  | error e => simp [errorVerdict]
  | ok u =>
    rw [key env h2 hcond]
    simp [calculate_similarity_empty, pyRound1_zero]

/-- Witness for claim C3: romanized "pilli" already scores 100 against the
pass-2 transcript, so pass 1 (which would crash here) is skipped and the
returned script_similarity is 0. -/
theorem recognize_pass1_skipped_witness :
    transcribeStep ⟨false, .ok (), .ok "pilli", .error "pass1 crashed"⟩
        "pilli" 50 = .ok ("", "pilli")
    ∧ (recognize_speech ⟨false, .ok (), .ok "pilli", .error "pass1 crashed"⟩
        "telugu" "boat" "pilli" 50).script_similarity = 0 := by
  have h := recognize_pass1_skipped
    ⟨false, .ok (), .ok "pilli", .error "pass1 crashed"⟩
    "telugu" "boat" "pilli" 50 "pilli" (by decide) rfl (Or.inl (by decide))
  exact ⟨h.1, h.2.2⟩

/-- Claim C6, amended: on the success path the displayed transcript is the
romanized transcript when the unrounded roman score strictly exceeds the
unrounded script score, and the native transcript otherwise (ties favor
the native transcript); it is always one of the two transcripts, and when
the two transcripts are distinct strings it equals the romanized
transcript if and only if the roman score strictly exceeds the script
score. -/
theorem recognize_displayed_transcript (env : Env)
    (language expected_word romanized : String) (similarity_threshold : ℚ)
    (tn tr : String)
    (hc : env.convertResult = .ok ())
    (ht : transcribeStep env romanized similarity_threshold = .ok (tn, tr)) :
    ((recognize_speech env language expected_word romanized
        similarity_threshold).transcribed = tn
      ∨ (recognize_speech env language expected_word romanized
          similarity_threshold).transcribed = tr)
    ∧ (recognize_speech env language expected_word romanized
          similarity_threshold).transcribed
        = (if calculate_similarity expected_word tn
              < (if romanized = "" then 0
                 else calculate_similarity romanized tr)
           then tr else tn)
    ∧ (tn ≠ tr →
        ((recognize_speech env language expected_word romanized
            similarity_threshold).transcribed = tr
          ↔ calculate_similarity expected_word tn
              < (if romanized = "" then 0
                 else calculate_similarity romanized tr))) := by
  simp only [recognize_speech, hc, ht]
  refine ⟨?_, trivial, fun hne => ?_⟩
  · by_cases hlt : calculate_similarity expected_word tn
        < (if romanized = "" then 0 else calculate_similarity romanized tr)
    · simp [hlt]
    · simp [hlt]
  · by_cases hlt : calculate_similarity expected_word tn
        < (if romanized = "" then 0 else calculate_similarity romanized tr)
    · simp [hlt]
    · simp [hlt, hne]

/-- Claim C6, counterexample: with threshold 101 both passes run and both
transcripts are the string "cat"; the roman and script scores tie at 100,
so the native transcript is chosen — yet the transcribed field equals the
romanized-pass transcript "cat" while roman_similarity is not strictly
greater than script_similarity, refuting the claimed iff. -/
theorem recognize_displayed_transcript_counterexample :
    transcribeStep envC6 "cat" 101 = .ok ("cat", "cat")
    ∧ (recognize_speech envC6 "telugu" "cat" "cat" 101).transcribed = "cat"
    ∧ ¬ ((recognize_speech envC6 "telugu" "cat" "cat" 101).script_similarity
          < (recognize_speech envC6 "telugu" "cat" "cat" 101).roman_similarity) := by
  decide

/-- Witness for claim C6's amended theorem at a concrete skip-path run:
the roman score 100 beats the script score 0, so the romanized transcript
is displayed. -/
theorem recognize_displayed_transcript_witness :
    (recognize_speech ⟨false, .ok (), .ok "pilli", .ok "junk"⟩ "telugu"
        "boat" "pilli" 50).transcribed = "pilli" := by
  have h := recognize_displayed_transcript
    ⟨false, .ok (), .ok "pilli", .ok "junk"⟩
    "telugu" "boat" "pilli" 50 "" "pilli" rfl (by decide)
  exact h.2.1.trans (by decide)

/-- Claim C10 (confirmed): on the success path every similarity field is
the exact computed score rounded to one decimal place while is_correct
compares the unrounded best score to the threshold; consequently there are
inputs — exhibited at envC10 — where the reported similarity meets the
threshold but is_correct is false. -/
theorem recognize_rounding_semantics :
    (∀ (env : Env) (language expected_word romanized : String)
        (similarity_threshold : ℚ) (tn tr : String),
      env.convertResult = .ok () →
      transcribeStep env romanized similarity_threshold = .ok (tn, tr) →
      (recognize_speech env language expected_word romanized
          similarity_threshold).script_similarity
          = pyRound1 (calculate_similarity expected_word tn)
      ∧ (recognize_speech env language expected_word romanized
            similarity_threshold).roman_similarity
          = pyRound1 (if romanized = "" then 0
              else calculate_similarity romanized tr)
      ∧ (recognize_speech env language expected_word romanized
            similarity_threshold).similarity
          = pyRound1 (max (calculate_similarity expected_word tn)
              (if romanized = "" then 0
               else calculate_similarity romanized tr))
      ∧ (recognize_speech env language expected_word romanized
            similarity_threshold).is_correct
          = decide (similarity_threshold
              ≤ max (calculate_similarity expected_word tn)
                  (if romanized = "" then 0
                   else calculate_similarity romanized tr)))
    ∧ ((recognize_speech envC10 "telugu" "ab" "" (mkRat 667 10)).is_correct = false
        ∧ mkRat 667 10
            ≤ (recognize_speech envC10 "telugu" "ab" "" (mkRat 667 10)).similarity) := by
  constructor
  · intro env language expected_word romanized similarity_threshold tn tr hc ht
    simp only [recognize_speech, hc, ht]
    exact ⟨trivial, trivial, trivial, trivial⟩
  · decide

/-- Witness for claim C10 at a concrete skip-path run: the roman score
800/9 ≈ 88.89 is reported as 88.9 in the roman_similarity field. -/
theorem recognize_rounding_semantics_witness :
    (recognize_speech ⟨false, .ok (), .ok "pili", .ok "x"⟩ "telugu"
        "boat" "pilli" 50).roman_similarity = mkRat 889 10 := by
  have h := recognize_rounding_semantics.1 ⟨false, .ok (), .ok "pili", .ok "x"⟩
    "telugu" "boat" "pilli" 50 "" "pili" rfl (by decide)
  exact h.2.1.trans (by decide)
